import Mathlib

/-!
Shallow embedding of the mesh-to-mesh collision core in `src/sample2/main.cpp`
(functions `checkOverlapOnAxis`, `TriTriIntersect`, `PrimitiveBroadPhase`,
`AtayBayazitCollide`).  `double` coordinates are modelled by exact rationals,
`Vector3d` by a three-component record, `Transform3d` (an affine rigid
transform) by a 3x3 matrix together with a translation vector, and
`BVHModel<OBBRSSd>` by its vertex buffer and triangle-index buffer, which are
the only parts of the model the code reads (`num_vertices`, `vertices`,
`num_tris`, `tri_indices`).  Raw C++ array access `vertices[k]` is modelled by
`List.getD` with a zero default: for in-range indices this is exact, and for
out-of-range indices (where the C++ has undefined behaviour) it reads a
default value, making the out-of-bounds behaviour of the code explicit.

The OpenMP-parallel triangle-pair loop in `AtayBayazitCollide` sets a shared
`collision` flag to `true` and only ever writes `true`; its final value is the
OR over every triangle pair of `TriTriIntersect`, independent of interleaving,
which is how the loop is embedded (`List.any` over both index ranges).
-/

/-- Three-component vector, modelling `fcl::Vector3d`. -/
structure Vec3 where
  x : ℚ
  y : ℚ
  z : ℚ
deriving DecidableEq, Repr

/-- Componentwise subtraction, modelling `Vector3d` operator `-`. -/
instance : Sub Vec3 where
  sub a b := ⟨a.x - b.x, a.y - b.y, a.z - b.z⟩

/-- Componentwise negation. -/
instance : Neg Vec3 where
  neg a := ⟨-a.x, -a.y, -a.z⟩

/-- Dot product, modelling `Vector3d::dot`. -/
def Vec3.dot (a b : Vec3) : ℚ :=
  a.x * b.x + a.y * b.y + a.z * b.z

/-- Cross product, modelling `Vector3d::cross`. -/
def Vec3.cross (a b : Vec3) : Vec3 :=
  ⟨a.y * b.z - a.z * b.y, a.z * b.x - a.x * b.z, a.x * b.y - a.y * b.x⟩

/-- Squared Euclidean norm, modelling `Vector3d::squaredNorm`. -/
def Vec3.squaredNorm (a : Vec3) : ℚ :=
  a.x * a.x + a.y * a.y + a.z * a.z

/-- Affine transform (3x3 linear part, row major, plus translation),
modelling `fcl::Transform3d` as it is used by the code: applied to a vector to
produce its world-space image. -/
structure Transform3d where
  r00 : ℚ
  r01 : ℚ
  r02 : ℚ
  r10 : ℚ
  r11 : ℚ
  r12 : ℚ
  r20 : ℚ
  r21 : ℚ
  r22 : ℚ
  tx : ℚ
  ty : ℚ
  tz : ℚ
deriving DecidableEq, Repr

/-- Application `tf * v` of a transform to a vector. -/
def Transform3d.apply (t : Transform3d) (v : Vec3) : Vec3 :=
  ⟨t.r00 * v.x + t.r01 * v.y + t.r02 * v.z + t.tx,
   t.r10 * v.x + t.r11 * v.y + t.r12 * v.z + t.ty,
   t.r20 * v.x + t.r21 * v.y + t.r22 * v.z + t.tz⟩

/-- The identity transform, `Transform3d::Identity()`. -/
def idTf : Transform3d := ⟨1, 0, 0, 0, 1, 0, 0, 0, 1, 0, 0, 0⟩

/-- Triple of vertex indices, modelling `fcl::Triangle` (`tri[0]`, `tri[1]`,
`tri[2]`). -/
structure Triangle where
  v0 : Nat
  v1 : Nat
  v2 : Nat
deriving DecidableEq, Repr

/-- The parts of `BVHModel<OBBRSSd>` the collision core reads: the vertex
buffer and the triangle-index buffer.  `num_vertices` and `num_tris` are the
buffer lengths. -/
structure BVHModel where
  vertices : List Vec3
  tri_indices : List Triangle
deriving DecidableEq, Repr

/-- The `num_vertices` field of the model. -/
def BVHModel.num_vertices (m : BVHModel) : Nat := m.vertices.length

/-- The `num_tris` field of the model. -/
def BVHModel.num_tris (m : BVHModel) : Nat := m.tri_indices.length

/-- The epsilon `1e-8` of `checkOverlapOnAxis`. -/
def axisEps : ℚ := 1 / 100000000

/-- Minimum of the three projections of a triangle's vertices onto an axis:
the value of `minU` (resp. `minV`) after the projection loop in
`checkOverlapOnAxis`, which starts at `axis.dot(U[0])` and folds `min` over
the remaining two vertices. -/
def projMin (axis : Vec3) (U : Fin 3 → Vec3) : ℚ :=
  min (min (Vec3.dot axis (U 0)) (Vec3.dot axis (U 1))) (Vec3.dot axis (U 2))

/-- Maximum of the three projections, the value of `maxU` (resp. `maxV`)
after the projection loop in `checkOverlapOnAxis`. -/
def projMax (axis : Vec3) (U : Fin 3 → Vec3) : ℚ :=
  max (max (Vec3.dot axis (U 0)) (Vec3.dot axis (U 1))) (Vec3.dot axis (U 2))

/-- Function `checkOverlapOnAxis(axis, U, V)`: returns `true` when the axis is
near-degenerate (`squaredNorm < 1e-8`), returns `false` when the projected
intervals of the two triangles have a gap, and `true` otherwise. -/
def checkOverlapOnAxis (axis : Vec3) (U V : Fin 3 → Vec3) : Bool :=
  if axis.squaredNorm < axisEps then true
  else if projMax axis U < projMin axis V ∨ projMax axis V < projMin axis U then false
  else true

/-- Function `TriTriIntersect(U0,U1,U2,V0,V1,V2)`: the 11-axis SAT triangle-triangle
test.  Tests the face normal of `U`, then the face normal of `V`, then the
nine cross products `edgeU[i] x edgeV[j]`, returning `false` at the first
axis on which `checkOverlapOnAxis` finds a gap, `true` when all pass. -/
def TriTriIntersect (U0 U1 U2 V0 V1 V2 : Vec3) : Bool :=
  let U : Fin 3 → Vec3 := ![U0, U1, U2]
  let V : Fin 3 → Vec3 := ![V0, V1, V2]
  let edgeU : Fin 3 → Vec3 := ![U1 - U0, U2 - U1, U0 - U2]
  let edgeV : Fin 3 → Vec3 := ![V1 - V0, V2 - V1, V0 - V2]
  let normalU := Vec3.cross (edgeU 0) (edgeU 1)
  if checkOverlapOnAxis normalU U V = false then false
  else
    let normalV := Vec3.cross (edgeV 0) (edgeV 1)
    if checkOverlapOnAxis normalV U V = false then false
    else
      (List.finRange 3).all fun i =>
        (List.finRange 3).all fun j =>
          checkOverlapOnAxis (Vec3.cross (edgeU i) (edgeV j)) U V

/-- One step of the AABB accumulation loop in `PrimitiveBroadPhase`:
transform the vertex and update the per-axis min corner and max corner. -/
def aabbStep (tf : Transform3d) (acc : Vec3 × Vec3) (v : Vec3) : Vec3 × Vec3 :=
  let w := tf.apply v
  (⟨min acc.1.x w.x, min acc.1.y w.y, min acc.1.z w.z⟩,
   ⟨max acc.2.x w.x, max acc.2.y w.y, max acc.2.z w.z⟩)

/-- The AABB loop of `PrimitiveBroadPhase`: both corners start at the world
image of `vertices[0]` and the loop folds over the remaining vertices. -/
def meshAABB (tf : Transform3d) (v0 : Vec3) (rest : List Vec3) : Vec3 × Vec3 :=
  rest.foldl (aabbStep tf) (tf.apply v0, tf.apply v0)

/-- Function `PrimitiveBroadPhase(m1, tf1, m2, tf2)`: returns `false` when either mesh
has no vertices; otherwise computes each mesh's world-space AABB and returns
`false` at the first world axis on which the boxes have a gap, `true` when
they overlap on all three axes. -/
def PrimitiveBroadPhase (m1 : BVHModel) (tf1 : Transform3d)
    (m2 : BVHModel) (tf2 : Transform3d) : Bool :=
  if m1.num_vertices = 0 ∨ m2.num_vertices = 0 then false
  else
    let a1 := meshAABB tf1 (m1.vertices.getD 0 ⟨0, 0, 0⟩) (m1.vertices.drop 1)
    let a2 := meshAABB tf2 (m2.vertices.getD 0 ⟨0, 0, 0⟩) (m2.vertices.drop 1)
    if a1.2.x < a2.1.x ∨ a2.2.x < a1.1.x then false
    else if a1.2.y < a2.1.y ∨ a2.2.y < a1.1.y then false
    else if a1.2.z < a2.1.z ∨ a2.2.z < a1.1.z then false
    else true

/-- Body of the triangle-pair loop of `AtayBayazitCollide`: fetch
`tri_indices[i]` and `tri_indices[j]`, transform the six vertices into world
space, and run `TriTriIntersect`.  The raw accesses `vertices[tri[k]]` are
`List.getD` with a zero default; the loop bounds keep `i` and `j` in range,
but a triangle holding an out-of-range vertex index reads the default (the
C++ reads out-of-bounds memory there). -/
def trianglePairIntersects (m1 : BVHModel) (tf1 : Transform3d)
    (m2 : BVHModel) (tf2 : Transform3d) (i j : Nat) : Bool :=
  let tri1 := m1.tri_indices.getD i ⟨0, 0, 0⟩
  let tri2 := m2.tri_indices.getD j ⟨0, 0, 0⟩
  TriTriIntersect
    (tf1.apply (m1.vertices.getD tri1.v0 ⟨0, 0, 0⟩))
    (tf1.apply (m1.vertices.getD tri1.v1 ⟨0, 0, 0⟩))
    (tf1.apply (m1.vertices.getD tri1.v2 ⟨0, 0, 0⟩))
    (tf2.apply (m2.vertices.getD tri2.v0 ⟨0, 0, 0⟩))
    (tf2.apply (m2.vertices.getD tri2.v1 ⟨0, 0, 0⟩))
    (tf2.apply (m2.vertices.getD tri2.v2 ⟨0, 0, 0⟩))

/-- Function `AtayBayazitCollide(m1, tf1, m2, tf2)`: the facade.  Runs the broad phase
and returns `false` when it rejects; otherwise the double loop over all
triangle pairs sets the shared `collision` flag (only ever to `true`), whose
final value is the OR over all pairs of `TriTriIntersect`, embedded as
`List.any` over both index ranges. -/
def AtayBayazitCollide (m1 : BVHModel) (tf1 : Transform3d)
    (m2 : BVHModel) (tf2 : Transform3d) : Bool :=
  if PrimitiveBroadPhase m1 tf1 m2 tf2 = false then false
  else
    (List.range m1.num_tris).any fun i =>
      (List.range m2.num_tris).any fun j =>
        trianglePairIntersects m1 tf1 m2 tf2 i j

/-- Validity of a mesh as required by the spec's error taxonomy: every
triangle's three vertex indices are within the bounds of the vertex buffer.
The code performs no such check. -/
def meshValid (m : BVHModel) : Prop :=
  ∀ t ∈ m.tri_indices,
    t.v0 < m.vertices.length ∧ t.v1 < m.vertices.length ∧ t.v2 < m.vertices.length

instance (m : BVHModel) : Decidable (meshValid m) := by
  unfold meshValid; infer_instance

/-- The 11 candidate separating axes tested by `TriTriIntersect`, in the
order the code tests them: triangle `U`'s face normal `edgeU[0] x edgeU[1]`,
triangle `V`'s face normal `edgeV[0] x edgeV[1]`, then the nine cross
products `edgeU[i] x edgeV[j]` in loop order. -/
def satAxes (U0 U1 U2 V0 V1 V2 : Vec3) : List Vec3 :=
  let edgeU : Fin 3 → Vec3 := ![U1 - U0, U2 - U1, U0 - U2]
  let edgeV : Fin 3 → Vec3 := ![V1 - V0, V2 - V1, V0 - V2]
  Vec3.cross (edgeU 0) (edgeU 1) :: Vec3.cross (edgeV 0) (edgeV 1) ::
    (List.finRange 3).flatMap fun i =>
      (List.finRange 3).map fun j => Vec3.cross (edgeU i) (edgeV j)

/-- Left fold of `min` over a list of rationals, starting from its head
(`0` for the empty list, which never occurs in use): the per-axis minimum
accumulated by the AABB loop of `PrimitiveBroadPhase`. -/
def listMin : List ℚ → ℚ
  | [] => 0
  | x :: xs => xs.foldl min x

/-- Left fold of `max` over a list of rationals, starting from its head. -/
def listMax : List ℚ → ℚ
  | [] => 0
  | x :: xs => xs.foldl max x

/-- The per-axis minimum, over all world-transformed vertices of a mesh, of
the coordinate selected by `f`: one component of the mesh's world AABB min
corner. -/
def minWorldCoord (f : Vec3 → ℚ) (tf : Transform3d) (m : BVHModel) : ℚ :=
  listMin (m.vertices.map fun v => f (tf.apply v))

/-- The per-axis maximum over all world-transformed vertices of a mesh. -/
def maxWorldCoord (f : Vec3 → ℚ) (tf : Transform3d) (m : BVHModel) : ℚ :=
  listMax (m.vertices.map fun v => f (tf.apply v))

/-- Concrete example mesh: one triangle in the plane `z = 0`. -/
def sampleTriMeshA : BVHModel :=
  ⟨[⟨0, 0, 0⟩, ⟨1, 0, 0⟩, ⟨0, 1, 0⟩], [⟨0, 1, 2⟩]⟩

/-- Concrete example mesh: one triangle sharing exactly the vertex at the
origin with `sampleTriMeshA` and otherwise disjoint from it. -/
def sampleTriMeshB : BVHModel :=
  ⟨[⟨0, 0, 0⟩, ⟨-1, 0, 0⟩, ⟨0, -1, 0⟩], [⟨0, 1, 2⟩]⟩

/-- Concrete example mesh with one vertex and zero triangles. -/
def samplePointMesh : BVHModel := ⟨[⟨0, 0, 0⟩], []⟩

/-- Concrete example mesh with zero vertices and zero triangles. -/
def sampleEmptyMesh : BVHModel := ⟨[], []⟩

/-- Concrete invalid mesh: a single vertex but a triangle whose indices `5`
and `9` lie outside the vertex buffer. -/
def invalidIndexMesh : BVHModel := ⟨[⟨0, 0, 0⟩], [⟨0, 5, 9⟩]⟩

/-- Pure translation along the `x` axis. -/
def shiftXTf (d : ℚ) : Transform3d := ⟨1, 0, 0, 0, 1, 0, 0, 0, 1, d, 0, 0⟩

/-- Two booleans are equal when they are equivalent as propositions. -/
theorem boolEqOfIff {a b : Bool} (h : a = true ↔ b = true) : a = b := by
  cases a <;> cases b <;> simp_all

/-- Unfolding lemma for subtraction of vectors. -/
theorem Vec3.sub_def (a b : Vec3) : a - b = ⟨a.x - b.x, a.y - b.y, a.z - b.z⟩ := rfl

/-- Unfolding lemma for negation of vectors. -/
theorem Vec3.neg_def (a : Vec3) : -a = ⟨-a.x, -a.y, -a.z⟩ := rfl

/-- The cross product is anticommutative. -/
theorem Vec3.cross_anticomm (a b : Vec3) : Vec3.cross b a = -(Vec3.cross a b) := by
  simp only [Vec3.cross, Vec3.neg_def, Vec3.mk.injEq]
  refine ⟨by ring, by ring, by ring⟩

/-- Dotting with a negated axis negates the projection. -/
theorem Vec3.dot_neg (a u : Vec3) : Vec3.dot (-a) u = -(Vec3.dot a u) := by
  simp only [Vec3.dot, Vec3.neg_def]; ring

/-- Negating an axis preserves its squared norm. -/
theorem Vec3.squaredNorm_neg (a : Vec3) : (-a).squaredNorm = a.squaredNorm := by
  simp only [Vec3.squaredNorm, Vec3.neg_def]; ring

/-- Characterization of `checkOverlapOnAxis`: it returns `true` exactly when
the axis is degenerate or the projected intervals have no gap. -/
theorem checkOverlapOnAxis_eq_true_iff (a : Vec3) (U V : Fin 3 → Vec3) :
    checkOverlapOnAxis a U V = true ↔
      a.squaredNorm < axisEps ∨
        ¬(projMax a U < projMin a V ∨ projMax a V < projMin a U) := by
  unfold checkOverlapOnAxis
  by_cases h1 : a.squaredNorm < axisEps
  · simp [h1]
  · by_cases h2 : projMax a U < projMin a V ∨ projMax a V < projMin a U
    · simp [h1, h2]
    · simp [h1, h2]

/-- The projection minimum is below the projection of each vertex. -/
theorem projMin_le_dot (a : Vec3) (U : Fin 3 → Vec3) (i : Fin 3) :
    projMin a U ≤ Vec3.dot a (U i) := by
  unfold projMin
  fin_cases i
  · exact le_trans (min_le_left _ _) (min_le_left _ _)
  · exact le_trans (min_le_left _ _) (min_le_right _ _)
  · exact min_le_right _ _

/-- The projection of each vertex is below the projection maximum. -/
theorem dot_le_projMax (a : Vec3) (U : Fin 3 → Vec3) (i : Fin 3) :
    Vec3.dot a (U i) ≤ projMax a U := by
  unfold projMax
  fin_cases i
  · exact le_trans (le_max_left _ _) (le_max_left _ _)
  · exact le_trans (le_max_right _ _) (le_max_left _ _)
  · exact le_max_right _ _

/-- A triangle's projected interval is well formed. -/
theorem projMin_le_projMax (a : Vec3) (U : Fin 3 → Vec3) :
    projMin a U ≤ projMax a U :=
  le_trans (projMin_le_dot a U 0) (dot_le_projMax a U 0)

/-- Negating the axis turns the projection minimum into minus the maximum. -/
theorem projMin_neg (a : Vec3) (U : Fin 3 → Vec3) :
    projMin (-a) U = -(projMax a U) := by
  unfold projMin projMax
  rw [Vec3.dot_neg, Vec3.dot_neg, Vec3.dot_neg, min_neg_neg, min_neg_neg]

/-- Negating the axis turns the projection maximum into minus the minimum. -/
theorem projMax_neg (a : Vec3) (U : Fin 3 → Vec3) :
    projMax (-a) U = -(projMin a U) := by
  unfold projMin projMax
  rw [Vec3.dot_neg, Vec3.dot_neg, Vec3.dot_neg, max_neg_neg, max_neg_neg]

/-- The axis-overlap test does not depend on the order of the two
triangles. -/
theorem checkOverlapOnAxis_comm (a : Vec3) (U V : Fin 3 → Vec3) :
    checkOverlapOnAxis a U V = checkOverlapOnAxis a V U := by
  apply boolEqOfIff
  rw [checkOverlapOnAxis_eq_true_iff, checkOverlapOnAxis_eq_true_iff]
  tauto

/-- The axis-overlap test does not depend on the sign of the axis. -/
theorem checkOverlapOnAxis_neg (a : Vec3) (U V : Fin 3 → Vec3) :
    checkOverlapOnAxis (-a) U V = checkOverlapOnAxis a U V := by
  apply boolEqOfIff
  rw [checkOverlapOnAxis_eq_true_iff, checkOverlapOnAxis_eq_true_iff,
    Vec3.squaredNorm_neg]
  simp only [projMin_neg, projMax_neg, neg_lt_neg_iff]
  tauto

/-- Characterization of `TriTriIntersect`: it returns `true` exactly when
the two face normals and all nine edge cross products pass the
axis-overlap test. -/
theorem triTriIntersect_eq_true_iff (U0 U1 U2 V0 V1 V2 : Vec3) :
    TriTriIntersect U0 U1 U2 V0 V1 V2 = true ↔
      (checkOverlapOnAxis (Vec3.cross (U1 - U0) (U2 - U1))
          ![U0, U1, U2] ![V0, V1, V2] = true ∧
       checkOverlapOnAxis (Vec3.cross (V1 - V0) (V2 - V1))
          ![U0, U1, U2] ![V0, V1, V2] = true ∧
       ∀ i j : Fin 3,
         checkOverlapOnAxis
           (Vec3.cross ((![U1 - U0, U2 - U1, U0 - U2]) i)
             ((![V1 - V0, V2 - V1, V0 - V2]) j))
           ![U0, U1, U2] ![V0, V1, V2] = true) := by
  unfold TriTriIntersect
  simp only [Matrix.cons_val_zero, Matrix.cons_val_one, Matrix.head_cons]
  by_cases h1 : checkOverlapOnAxis (Vec3.cross (U1 - U0) (U2 - U1))
      ![U0, U1, U2] ![V0, V1, V2] = true
  · by_cases h2 : checkOverlapOnAxis (Vec3.cross (V1 - V0) (V2 - V1))
        ![U0, U1, U2] ![V0, V1, V2] = true
    · simp [h1, h2, List.all_eq_true, List.mem_finRange]
    · simp only [Bool.not_eq_true] at h2
      simp [h1, h2]
  · simp only [Bool.not_eq_true] at h1
    simp [h1]

/-- The function `TriTriIntersect` equals the conjunction, over the 11 candidate axes,
of the axis-overlap test. -/
theorem triTriIntersect_eq_all (U0 U1 U2 V0 V1 V2 : Vec3) :
    TriTriIntersect U0 U1 U2 V0 V1 V2 =
      (satAxes U0 U1 U2 V0 V1 V2).all fun a =>
        checkOverlapOnAxis a ![U0, U1, U2] ![V0, V1, V2] := by
  apply boolEqOfIff
  rw [triTriIntersect_eq_true_iff, List.all_eq_true]
  unfold satAxes
  simp only [Matrix.cons_val_zero, Matrix.cons_val_one, Matrix.head_cons,
    List.mem_cons, List.mem_flatMap, List.mem_map, List.mem_finRange, true_and]
  constructor
  · rintro ⟨h1, h2, h9⟩ a ha
    rcases ha with rfl | rfl | ⟨i, j, rfl⟩
    · exact h1
    · exact h2
    · exact h9 i j
  · intro h
    refine ⟨h _ (Or.inl rfl), h _ (Or.inr (Or.inl rfl)), fun i j => ?_⟩
    exact h _ (Or.inr (Or.inr ⟨i, j, rfl⟩))

/-- Any axis passes the overlap test when the two triangles share a common
point among their vertices: both projected intervals contain its
projection. -/
theorem checkOverlapOnAxis_of_shared (a : Vec3) (U V : Fin 3 → Vec3)
    (i j : Fin 3) (h : U i = V j) : checkOverlapOnAxis a U V = true := by
  rw [checkOverlapOnAxis_eq_true_iff]
  right
  rintro (hg | hg)
  · have h1 : projMin a V ≤ Vec3.dot a (U i) := h ▸ projMin_le_dot a V j
    exact absurd (le_trans h1 (dot_le_projMax a U i)) (not_le.mpr hg)
  · have h4 : Vec3.dot a (U i) ≤ projMax a V := h ▸ dot_le_projMax a V j
    exact absurd (le_trans (projMin_le_dot a U i) h4) (not_le.mpr hg)

/-- Two triangles sharing a vertex pass all 11 axis tests. -/
theorem triTriIntersect_of_shared (U0 U1 U2 V0 V1 V2 : Vec3) (i j : Fin 3)
    (h : (![U0, U1, U2]) i = (![V0, V1, V2]) j) :
    TriTriIntersect U0 U1 U2 V0 V1 V2 = true := by
  rw [triTriIntersect_eq_true_iff]
  exact ⟨checkOverlapOnAxis_of_shared _ _ _ i j h,
    checkOverlapOnAxis_of_shared _ _ _ i j h,
    fun a b => checkOverlapOnAxis_of_shared _ _ _ i j h⟩

/-- The function `TriTriIntersect` is symmetric in its two triangles. -/
theorem triTriIntersect_comm (U0 U1 U2 V0 V1 V2 : Vec3) :
    TriTriIntersect U0 U1 U2 V0 V1 V2 = TriTriIntersect V0 V1 V2 U0 U1 U2 := by
  apply boolEqOfIff
  rw [triTriIntersect_eq_true_iff, triTriIntersect_eq_true_iff]
  constructor
  · rintro ⟨h1, h2, h9⟩
    refine ⟨by rw [checkOverlapOnAxis_comm]; exact h2,
      by rw [checkOverlapOnAxis_comm]; exact h1, fun i j => ?_⟩
    rw [Vec3.cross_anticomm, checkOverlapOnAxis_neg, checkOverlapOnAxis_comm]
    exact h9 j i
  · rintro ⟨h1, h2, h9⟩
    refine ⟨by rw [checkOverlapOnAxis_comm]; exact h2,
      by rw [checkOverlapOnAxis_comm]; exact h1, fun i j => ?_⟩
    rw [Vec3.cross_anticomm, checkOverlapOnAxis_neg, checkOverlapOnAxis_comm]
    exact h9 j i

/-- The AABB fold computes, componentwise, a fold of `min` for the min
corner and a fold of `max` for the max corner. -/
theorem foldl_aabbStep (tf : Transform3d) (l : List Vec3) : ∀ mn mx : Vec3,
    l.foldl (aabbStep tf) (mn, mx) =
      (⟨l.foldl (fun a v => min a (tf.apply v).x) mn.x,
        l.foldl (fun a v => min a (tf.apply v).y) mn.y,
        l.foldl (fun a v => min a (tf.apply v).z) mn.z⟩,
       ⟨l.foldl (fun a v => max a (tf.apply v).x) mx.x,
        l.foldl (fun a v => max a (tf.apply v).y) mx.y,
        l.foldl (fun a v => max a (tf.apply v).z) mx.z⟩) := by
  induction l with
  | nil => intro mn mx; rfl
  | cons v l ih =>
    intro mn mx
    simp only [List.foldl_cons]
    rw [show aabbStep tf (mn, mx) v =
      (⟨min mn.x (tf.apply v).x, min mn.y (tf.apply v).y, min mn.z (tf.apply v).z⟩,
       ⟨max mx.x (tf.apply v).x, max mx.y (tf.apply v).y, max mx.z (tf.apply v).z⟩) from rfl]
    rw [ih]

/-- A fold of `min` is below its initial value. -/
theorem foldl_min_le_init (l : List ℚ) : ∀ a : ℚ, l.foldl min a ≤ a := by
  induction l with
  | nil => intro a; exact le_refl a
  | cons b l ih => intro a; exact le_trans (ih (min a b)) (min_le_left a b)

/-- A fold of `min` is below every list element. -/
theorem foldl_min_le_mem (l : List ℚ) (x : ℚ) (hx : x ∈ l) :
    ∀ a : ℚ, l.foldl min a ≤ x := by
  induction l with
  | nil => cases hx
  | cons b l ih =>
    intro a
    rcases List.mem_cons.mp hx with rfl | hx
    · exact le_trans (foldl_min_le_init l (min a x)) (min_le_right a x)
    · exact ih hx (min a b)

/-- A fold of `min` is its initial value or a list element. -/
theorem foldl_min_choice (l : List ℚ) : ∀ a : ℚ,
    l.foldl min a = a ∨ l.foldl min a ∈ l := by
  induction l with
  | nil => intro a; exact Or.inl rfl
  | cons b l ih =>
    intro a
    rcases ih (min a b) with h | h
    · rcases min_choice a b with hab | hab
      · exact Or.inl (by rw [List.foldl_cons, h, hab])
      · exact Or.inr (by rw [List.foldl_cons, h, hab]; exact List.mem_cons_self _ _)
    · exact Or.inr (List.mem_cons_of_mem _ h)

/-- A fold of `max` is above its initial value. -/
theorem le_foldl_max_init (l : List ℚ) : ∀ a : ℚ, a ≤ l.foldl max a := by
  induction l with
  | nil => intro a; exact le_refl a
  | cons b l ih => intro a; exact le_trans (le_max_left a b) (ih (max a b))

/-- A fold of `max` is above every list element. -/
theorem le_foldl_max_mem (l : List ℚ) (x : ℚ) (hx : x ∈ l) :
    ∀ a : ℚ, x ≤ l.foldl max a := by
  induction l with
  | nil => cases hx
  | cons b l ih =>
    intro a
    rcases List.mem_cons.mp hx with rfl | hx
    · exact le_trans (le_max_right a x) (le_foldl_max_init l (max a x))
    · exact ih hx (max a b)

/-- A fold of `max` is its initial value or a list element. -/
theorem foldl_max_choice (l : List ℚ) : ∀ a : ℚ,
    l.foldl max a = a ∨ l.foldl max a ∈ l := by
  induction l with
  | nil => intro a; exact Or.inl rfl
  | cons b l ih =>
    intro a
    rcases ih (max a b) with h | h
    · rcases max_choice a b with hab | hab
      · exact Or.inl (by rw [List.foldl_cons, h, hab])
      · exact Or.inr (by rw [List.foldl_cons, h, hab]; exact List.mem_cons_self _ _)
    · exact Or.inr (List.mem_cons_of_mem _ h)

/-- The value `listMin l` is a lower bound of the list. -/
theorem listMin_le (l : List ℚ) (x : ℚ) (hx : x ∈ l) : listMin l ≤ x := by
  cases l with
  | nil => cases hx
  | cons b l =>
    rcases List.mem_cons.mp hx with rfl | hx
    · exact foldl_min_le_init l x
    · exact foldl_min_le_mem l x hx b

/-- The value of `listMin` on a nonempty list is attained by a list element. -/
theorem listMin_mem (l : List ℚ) (h : l ≠ []) : listMin l ∈ l := by
  cases l with
  | nil => exact absurd rfl h
  | cons b l =>
    rcases foldl_min_choice l b with hc | hc
    · rw [listMin, hc]; exact List.mem_cons_self _ _
    · exact List.mem_cons_of_mem _ hc

/-- The value `listMax l` is an upper bound of the list. -/
theorem le_listMax (l : List ℚ) (x : ℚ) (hx : x ∈ l) : x ≤ listMax l := by
  cases l with
  | nil => cases hx
  | cons b l =>
    rcases List.mem_cons.mp hx with rfl | hx
    · exact le_foldl_max_init l x
    · exact le_foldl_max_mem l x hx b

/-- The value of `listMax` on a nonempty list is attained by a list element. -/
theorem listMax_mem (l : List ℚ) (h : l ≠ []) : listMax l ∈ l := by
  cases l with
  | nil => exact absurd rfl h
  | cons b l =>
    rcases foldl_max_choice l b with hc | hc
    · rw [listMax, hc]; exact List.mem_cons_self _ _
    · exact List.mem_cons_of_mem _ hc

/-- The AABB loop started at the head vertex computes exactly the per-axis
minima and maxima over all world-transformed vertices. -/
theorem meshAABB_eq (tf : Transform3d) (v : Vec3) (r : List Vec3) :
    meshAABB tf v r =
      (⟨listMin ((v :: r).map fun u => (tf.apply u).x),
        listMin ((v :: r).map fun u => (tf.apply u).y),
        listMin ((v :: r).map fun u => (tf.apply u).z)⟩,
       ⟨listMax ((v :: r).map fun u => (tf.apply u).x),
        listMax ((v :: r).map fun u => (tf.apply u).y),
        listMax ((v :: r).map fun u => (tf.apply u).z)⟩) := by
  unfold meshAABB
  rw [foldl_aabbStep]
  simp only [List.map_cons, listMin, listMax, List.foldl_map]

/-- Broad phase rejection for empty meshes: the code returns `false` as soon
as either vertex buffer is empty. -/
theorem primitiveBroadPhase_empty (m1 : BVHModel) (tf1 : Transform3d)
    (m2 : BVHModel) (tf2 : Transform3d)
    (h : m1.num_vertices = 0 ∨ m2.num_vertices = 0) :
    PrimitiveBroadPhase m1 tf1 m2 tf2 = false := by
  unfold PrimitiveBroadPhase
  rw [if_pos h]

/-- Characterization of the broad phase on nonempty meshes: it succeeds
exactly when the two world AABBs overlap on all three axes, touching
included. -/
theorem primitiveBroadPhase_eq_true_iff (m1 : BVHModel) (tf1 : Transform3d)
    (m2 : BVHModel) (tf2 : Transform3d)
    (h1 : m1.vertices ≠ []) (h2 : m2.vertices ≠ []) :
    PrimitiveBroadPhase m1 tf1 m2 tf2 = true ↔
      (¬(maxWorldCoord Vec3.x tf1 m1 < minWorldCoord Vec3.x tf2 m2 ∨
          maxWorldCoord Vec3.x tf2 m2 < minWorldCoord Vec3.x tf1 m1) ∧
       ¬(maxWorldCoord Vec3.y tf1 m1 < minWorldCoord Vec3.y tf2 m2 ∨
          maxWorldCoord Vec3.y tf2 m2 < minWorldCoord Vec3.y tf1 m1) ∧
       ¬(maxWorldCoord Vec3.z tf1 m1 < minWorldCoord Vec3.z tf2 m2 ∨
          maxWorldCoord Vec3.z tf2 m2 < minWorldCoord Vec3.z tf1 m1)) := by
  obtain ⟨v1, r1, e1⟩ := List.exists_cons_of_ne_nil h1
  obtain ⟨v2, r2, e2⟩ := List.exists_cons_of_ne_nil h2
  unfold PrimitiveBroadPhase minWorldCoord maxWorldCoord
  rw [if_neg (by simp [BVHModel.num_vertices, e1, e2])]
  rw [e1, e2]
  simp only [List.getD_cons_zero, List.drop_succ_cons, List.drop_zero, meshAABB_eq]
  by_cases gx : listMax ((v1 :: r1).map fun u => (tf1.apply u).x) <
      listMin ((v2 :: r2).map fun u => (tf2.apply u).x) ∨
      listMax ((v2 :: r2).map fun u => (tf2.apply u).x) <
      listMin ((v1 :: r1).map fun u => (tf1.apply u).x)
  · simp [gx]
  · by_cases gy : listMax ((v1 :: r1).map fun u => (tf1.apply u).y) <
        listMin ((v2 :: r2).map fun u => (tf2.apply u).y) ∨
        listMax ((v2 :: r2).map fun u => (tf2.apply u).y) <
        listMin ((v1 :: r1).map fun u => (tf1.apply u).y)
    · simp [gx, gy]
    · by_cases gz : listMax ((v1 :: r1).map fun u => (tf1.apply u).z) <
          listMin ((v2 :: r2).map fun u => (tf2.apply u).z) ∨
          listMax ((v2 :: r2).map fun u => (tf2.apply u).z) <
          listMin ((v1 :: r1).map fun u => (tf1.apply u).z)
      · simp [gx, gy, gz]
      · simp [gx, gy, gz]

/-- The broad phase is symmetric in its two meshes. -/
theorem primitiveBroadPhase_comm (m1 : BVHModel) (tf1 : Transform3d)
    (m2 : BVHModel) (tf2 : Transform3d) :
    PrimitiveBroadPhase m1 tf1 m2 tf2 = PrimitiveBroadPhase m2 tf2 m1 tf1 := by
  by_cases h1 : m1.vertices = []
  · rw [primitiveBroadPhase_empty _ _ _ _ (Or.inl (by simp [BVHModel.num_vertices, h1])),
      primitiveBroadPhase_empty _ _ _ _ (Or.inr (by simp [BVHModel.num_vertices, h1]))]
  · by_cases h2 : m2.vertices = []
    · rw [primitiveBroadPhase_empty _ _ _ _ (Or.inr (by simp [BVHModel.num_vertices, h2])),
        primitiveBroadPhase_empty _ _ _ _ (Or.inl (by simp [BVHModel.num_vertices, h2]))]
    · apply boolEqOfIff
      rw [primitiveBroadPhase_eq_true_iff _ _ _ _ h1 h2,
        primitiveBroadPhase_eq_true_iff _ _ _ _ h2 h1]
      tauto

/-- Characterization of the facade: it reports a collision exactly when the
broad phase passes and some triangle pair intersects. -/
theorem atayBayazitCollide_eq_true_iff (m1 : BVHModel) (tf1 : Transform3d)
    (m2 : BVHModel) (tf2 : Transform3d) :
    AtayBayazitCollide m1 tf1 m2 tf2 = true ↔
      PrimitiveBroadPhase m1 tf1 m2 tf2 = true ∧
        ∃ i, i < m1.num_tris ∧ ∃ j, j < m2.num_tris ∧
          trianglePairIntersects m1 tf1 m2 tf2 i j = true := by
  unfold AtayBayazitCollide
  by_cases h : PrimitiveBroadPhase m1 tf1 m2 tf2 = false
  · simp [h]
  · simp only [Bool.not_eq_false] at h
    simp [h, List.any_eq_true, List.mem_range]

/-- Swapping the meshes swaps the roles of the two triangles in a pair
test without changing its outcome. -/
theorem trianglePairIntersects_comm (m1 : BVHModel) (tf1 : Transform3d)
    (m2 : BVHModel) (tf2 : Transform3d) (i j : Nat) :
    trianglePairIntersects m2 tf2 m1 tf1 j i =
      trianglePairIntersects m1 tf1 m2 tf2 i j := by
  unfold trianglePairIntersects
  rw [triTriIntersect_comm]

/-- The facade returns `false` when either mesh has no triangles: the
double loop is empty. -/
theorem atayBayazitCollide_no_tris (m1 : BVHModel) (tf1 : Transform3d)
    (m2 : BVHModel) (tf2 : Transform3d)
    (h : m1.num_tris = 0 ∨ m2.num_tris = 0) :
    AtayBayazitCollide m1 tf1 m2 tf2 = false := by
  cases hc : AtayBayazitCollide m1 tf1 m2 tf2 with
  | false => rfl
  | true =>
    obtain ⟨-, i, hi, j, hj, -⟩ := (atayBayazitCollide_eq_true_iff m1 tf1 m2 tf2).mp hc
    rcases h with h | h <;> omega

/-- An inhabited intersection of two closed intervals is the same as the
no-gap condition `NOT(maxA < minB OR maxB < minA)`, touching included. -/
theorem interval_overlap_iff (aU bU aV bV : ℚ) (hU : aU ≤ bU) (hV : aV ≤ bV) :
    ¬(bU < aV ∨ bV < aU) ↔
      ∃ t : ℚ, (aU ≤ t ∧ t ≤ bU) ∧ (aV ≤ t ∧ t ≤ bV) := by
  constructor
  · intro h
    push_neg at h
    exact ⟨max aU aV, ⟨le_max_left _ _, max_le hU h.1⟩,
      ⟨le_max_right _ _, max_le h.2 hV⟩⟩
  · rintro ⟨t, ⟨h1, h2⟩, ⟨h3, h4⟩⟩
    push_neg
    exact ⟨le_trans h3 h2, le_trans h1 h4⟩

/-- C3: `checkOverlapOnAxis` returns `true` exactly when the axis's squared
norm is below the epsilon `1e-8` (degenerate-axis pass-through, regardless
of the triangle coordinates) or the two projected intervals overlap; the
interval overlap condition `NOT(maxA < minB OR maxB < minA)` is exactly
nonempty intersection of the closed intervals, so touching at an endpoint
counts as overlapping.  The function is a pure function of its inputs. -/
theorem checkOverlap_spec (a : Vec3) (U V : Fin 3 → Vec3) :
    (checkOverlapOnAxis a U V = true ↔
      a.squaredNorm < 1 / 100000000 ∨
        ¬(projMax a U < projMin a V ∨ projMax a V < projMin a U)) ∧
    (¬(projMax a U < projMin a V ∨ projMax a V < projMin a U) ↔
      ∃ t : ℚ, (projMin a U ≤ t ∧ t ≤ projMax a U) ∧
        (projMin a V ≤ t ∧ t ≤ projMax a V)) := by
  constructor
  · exact checkOverlapOnAxis_eq_true_iff a U V
  · exact interval_overlap_iff _ _ _ _ (projMin_le_projMax a U) (projMin_le_projMax a V)

/-- C2: `TriTriIntersect` returns `false` exactly when at least one of the
11 candidate axes (the two face normals and the nine pairwise edge cross
products, listed by `satAxes`) fails the axis-overlap test, and returns
`true` when all 11 axes report overlap. -/
theorem triTri_axes_spec (U0 U1 U2 V0 V1 V2 : Vec3) :
    (TriTriIntersect U0 U1 U2 V0 V1 V2 = false ↔
      ∃ a ∈ satAxes U0 U1 U2 V0 V1 V2,
        checkOverlapOnAxis a ![U0, U1, U2] ![V0, V1, V2] = false) ∧
    ((∀ a ∈ satAxes U0 U1 U2 V0 V1 V2,
        checkOverlapOnAxis a ![U0, U1, U2] ![V0, V1, V2] = true) →
      TriTriIntersect U0 U1 U2 V0 V1 V2 = true) := by
  constructor
  · rw [triTriIntersect_eq_all]
    simp only [List.all_eq_false, Bool.not_eq_true]
  · intro h
    rw [triTriIntersect_eq_all, List.all_eq_true]
    exact h

/-- Witness for C2 at concrete inputs: two triangles separated along `z`
fail on an axis of `satAxes` (the face normal), and two triangles sharing
the origin pass all 11 axes. -/
theorem triTri_axes_spec_witness :
    TriTriIntersect ⟨0, 0, 0⟩ ⟨1, 0, 0⟩ ⟨0, 1, 0⟩ ⟨0, 0, 5⟩ ⟨1, 0, 5⟩ ⟨0, 1, 5⟩ = false ∧
    TriTriIntersect ⟨0, 0, 0⟩ ⟨1, 0, 0⟩ ⟨0, 1, 0⟩ ⟨0, 0, 0⟩ ⟨-1, 0, 0⟩ ⟨0, -1, 0⟩ = true :=
  ⟨(triTri_axes_spec _ _ _ _ _ _).1.mpr
    ⟨Vec3.cross ((⟨1, 0, 0⟩ : Vec3) - ⟨0, 0, 0⟩) ((⟨0, 1, 0⟩ : Vec3) - ⟨1, 0, 0⟩),
      by with_unfolding_all decide, by with_unfolding_all decide⟩,
   (triTri_axes_spec _ _ _ _ _ _).2 (by with_unfolding_all decide)⟩

/-- C1: the facade returns `false` whenever the broad phase rejects, and
when the broad phase passes it returns `true` exactly when some triangle
pair `(i, j)` with `i < num_tris` of mesh A and `j < num_tris` of mesh B
satisfies `TriTriIntersect` on the world-transformed vertices
(`trianglePairIntersects`). -/
theorem collide_facade_spec (m1 : BVHModel) (tf1 : Transform3d)
    (m2 : BVHModel) (tf2 : Transform3d) :
    (PrimitiveBroadPhase m1 tf1 m2 tf2 = false →
      AtayBayazitCollide m1 tf1 m2 tf2 = false) ∧
    (PrimitiveBroadPhase m1 tf1 m2 tf2 = true →
      (AtayBayazitCollide m1 tf1 m2 tf2 = true ↔
        ∃ i, i < m1.num_tris ∧ ∃ j, j < m2.num_tris ∧
          trianglePairIntersects m1 tf1 m2 tf2 i j = true)) := by
  constructor
  · intro h
    unfold AtayBayazitCollide
    rw [if_pos h]
  · intro h
    rw [atayBayazitCollide_eq_true_iff]
    simp [h]

/-- Witness for C1 at concrete inputs: a broad-phase rejection forces a
`false` result, and with the broad phase passing the result matches the
existence of an intersecting pair. -/
theorem collide_facade_spec_witness :
    AtayBayazitCollide sampleTriMeshA idTf sampleTriMeshA (shiftXTf 10) = false ∧
    AtayBayazitCollide sampleTriMeshA idTf sampleTriMeshB idTf = true :=
  ⟨(collide_facade_spec sampleTriMeshA idTf sampleTriMeshA (shiftXTf 10)).1
      (by with_unfolding_all decide),
   ((collide_facade_spec sampleTriMeshA idTf sampleTriMeshB idTf).2
      (by with_unfolding_all decide)).mpr
     ⟨0, by with_unfolding_all decide, 0, by with_unfolding_all decide,
       by with_unfolding_all decide⟩⟩

/-- C4: the broad phase returns `false` immediately when either mesh has no
vertices; otherwise it returns `true` exactly when the AABBs given by the
per-axis minima and maxima over all world-transformed vertices overlap on
all three axes, touching included. -/
theorem broadPhase_spec (m1 : BVHModel) (tf1 : Transform3d)
    (m2 : BVHModel) (tf2 : Transform3d) :
    ((m1.num_vertices = 0 ∨ m2.num_vertices = 0) →
      PrimitiveBroadPhase m1 tf1 m2 tf2 = false) ∧
    (m1.num_vertices ≠ 0 → m2.num_vertices ≠ 0 →
      (PrimitiveBroadPhase m1 tf1 m2 tf2 = true ↔
        (¬(maxWorldCoord Vec3.x tf1 m1 < minWorldCoord Vec3.x tf2 m2 ∨
            maxWorldCoord Vec3.x tf2 m2 < minWorldCoord Vec3.x tf1 m1) ∧
         ¬(maxWorldCoord Vec3.y tf1 m1 < minWorldCoord Vec3.y tf2 m2 ∨
            maxWorldCoord Vec3.y tf2 m2 < minWorldCoord Vec3.y tf1 m1) ∧
         ¬(maxWorldCoord Vec3.z tf1 m1 < minWorldCoord Vec3.z tf2 m2 ∨
            maxWorldCoord Vec3.z tf2 m2 < minWorldCoord Vec3.z tf1 m1)))) := by
  refine ⟨primitiveBroadPhase_empty m1 tf1 m2 tf2, fun h1 h2 => ?_⟩
  exact primitiveBroadPhase_eq_true_iff m1 tf1 m2 tf2
    (fun he => h1 (by simp [BVHModel.num_vertices, he]))
    (fun he => h2 (by simp [BVHModel.num_vertices, he]))

/-- Witness for C4 at concrete inputs: an empty mesh is rejected, and two
touching one-triangle meshes overlap on all axes. -/
theorem broadPhase_spec_witness :
    PrimitiveBroadPhase sampleEmptyMesh idTf sampleTriMeshA idTf = false ∧
    PrimitiveBroadPhase sampleTriMeshA idTf sampleTriMeshB idTf = true :=
  ⟨(broadPhase_spec sampleEmptyMesh idTf sampleTriMeshA idTf).1 (Or.inl rfl),
   ((broadPhase_spec sampleTriMeshA idTf sampleTriMeshB idTf).2
      (by with_unfolding_all decide) (by with_unfolding_all decide)).mpr
     (by with_unfolding_all decide)⟩

/-- C5: the code performs no validation of triangle vertex indices:
`invalidIndexMesh` has a triangle with indices `5` and `9` outside its
one-element vertex buffer, yet the facade signals no invalid-argument
condition and returns an ordinary boolean computed from out-of-bounds
reads (modelled as default-valued reads; the C++ reads out-of-bounds
memory). -/
theorem invalid_index_silent_result :
    ¬ meshValid invalidIndexMesh ∧
      AtayBayazitCollide invalidIndexMesh idTf sampleTriMeshA idTf = true :=
  ⟨by with_unfolding_all decide, by with_unfolding_all decide⟩

/-- Counterexample for C6: a mesh with one vertex and zero triangles passes
the broad phase, so `PrimitiveBroadPhase` does not return `false` for
zero-triangle meshes. -/
theorem broadPhase_zero_tris_counterexample :
    samplePointMesh.num_tris = 0 ∧
      PrimitiveBroadPhase samplePointMesh idTf samplePointMesh idTf = true :=
  ⟨rfl, by with_unfolding_all decide⟩

/-- C6 (amended): the broad phase returns `false` whenever either mesh has
zero vertices; a mesh with zero triangles but at least one vertex can still
pass the broad phase. -/
theorem broadPhase_zero_vertices_amended (m1 : BVHModel) (tf1 : Transform3d)
    (m2 : BVHModel) (tf2 : Transform3d)
    (h : m1.num_vertices = 0 ∨ m2.num_vertices = 0) :
    PrimitiveBroadPhase m1 tf1 m2 tf2 = false :=
  primitiveBroadPhase_empty m1 tf1 m2 tf2 h

/-- Witness for the amended C6 at a concrete input. -/
theorem broadPhase_zero_vertices_amended_witness :
    PrimitiveBroadPhase sampleEmptyMesh idTf samplePointMesh idTf = false :=
  broadPhase_zero_vertices_amended sampleEmptyMesh idTf samplePointMesh idTf
    (Or.inl rfl)

/-- C7: the end-to-end collision query returns `false` unconditionally when
either mesh has zero triangles. -/
theorem collide_empty_mesh_spec (m1 : BVHModel) (tf1 : Transform3d)
    (m2 : BVHModel) (tf2 : Transform3d)
    (h : m1.num_tris = 0 ∨ m2.num_tris = 0) :
    AtayBayazitCollide m1 tf1 m2 tf2 = false :=
  atayBayazitCollide_no_tris m1 tf1 m2 tf2 h

/-- Witness for C7 at a concrete input: a zero-triangle mesh whose AABB
overlaps the other mesh still yields `false`. -/
theorem collide_empty_mesh_spec_witness :
    AtayBayazitCollide samplePointMesh idTf sampleTriMeshA idTf = false :=
  collide_empty_mesh_spec samplePointMesh idTf sampleTriMeshA idTf (Or.inl rfl)

/-- C8: the collision query is commutative in its two (mesh, transform)
arguments. -/
theorem collide_comm_spec (m1 : BVHModel) (tf1 : Transform3d)
    (m2 : BVHModel) (tf2 : Transform3d) :
    AtayBayazitCollide m1 tf1 m2 tf2 = AtayBayazitCollide m2 tf2 m1 tf1 := by
  apply boolEqOfIff
  rw [atayBayazitCollide_eq_true_iff, atayBayazitCollide_eq_true_iff,
    primitiveBroadPhase_comm]
  constructor
  · rintro ⟨hp, i, hi, j, hj, hx⟩
    exact ⟨hp, j, hj, i, hi, by rw [trianglePairIntersects_comm]; exact hx⟩
  · rintro ⟨hp, j, hj, i, hi, hx⟩
    exact ⟨hp, i, hi, j, hj, by rw [trianglePairIntersects_comm]; exact hx⟩

/-- C9: two triangles sharing a world-space vertex (in particular two
triangles sharing exactly one vertex and otherwise disjoint) always pass
`TriTriIntersect`: touching counts as intersecting. -/
theorem triTri_shared_vertex_spec (U0 U1 U2 V0 V1 V2 : Vec3)
    (h : ∃ i j : Fin 3, (![U0, U1, U2]) i = (![V0, V1, V2]) j) :
    TriTriIntersect U0 U1 U2 V0 V1 V2 = true := by
  obtain ⟨i, j, hij⟩ := h
  exact triTriIntersect_of_shared U0 U1 U2 V0 V1 V2 i j hij

/-- Witness for C9 at concrete inputs: two triangles sharing exactly the
origin and otherwise disjoint intersect. -/
theorem triTri_shared_vertex_spec_witness :
    TriTriIntersect ⟨0, 0, 0⟩ ⟨1, 0, 0⟩ ⟨0, 1, 0⟩ ⟨0, 0, 0⟩ ⟨-2, 0, 0⟩ ⟨0, -2, 0⟩ = true :=
  triTri_shared_vertex_spec _ _ _ _ _ _ ⟨0, 0, by with_unfolding_all decide⟩

/-- C10: every triangle, degenerate ones included, intersects itself under
`TriTriIntersect`: identical projected intervals never show a gap. -/
theorem triTri_self_spec (U0 U1 U2 : Vec3) :
    TriTriIntersect U0 U1 U2 U0 U1 U2 = true :=
  triTriIntersect_of_shared U0 U1 U2 U0 U1 U2 0 0 rfl
